import Mathlib

/-!
Verification of the StatusValidator orchestration engine against its
natural-language specification.  The Python sources under
`src/status_validator/` are shallowly embedded as executable Lean
definitions; external library behaviour (SHA-256, JSON text
parsing/printing, Python `str()` rendering, wall-clock time, datetime
parsing) is passed in as function parameters, since those live outside the
repository.  All repository-level control flow and data manipulation is
translated directly from the source.
-/

namespace StatusValidator

/-! ## cache.py -/

/-- Python `str.strip()`: drop whitespace from both ends (written over the
character list so that it reduces in the kernel). -/
def pyStrip (s : String) : String :=
  ⟨((s.toList.dropWhile Char.isWhitespace).reverse.dropWhile Char.isWhitespace).reverse⟩

/-- Python `str.lower()` (ASCII case mapping, which covers every string the
code lowercases). -/
def pyLower (s : String) : String :=
  ⟨s.toList.map Char.toLower⟩

/-- Embedding of `compute_comment_hash` (cache.py lines 15-19).
`sha256hex` stands for `hashlib.sha256(...).hexdigest()` applied to the
UTF-8 encoding of its argument; the repository code normalises the comment
with `(comment or "").strip()` before hashing. -/
def compute_comment_hash (sha256hex : String → String) (comment : Option String) : String :=
  sha256hex (pyStrip (comment.getD ""))

/-- One stored record of the `llm_cache` SQLite table (cache.py lines 39-48).
The `updated_at` wall-clock column is not modelled: no claim mentions it and
its value never influences control flow. -/
structure CacheRec where
  status_text : String
  comment_hash : String
  payload_json : String
  deriving Repr, DecidableEq

/-- The `llm_cache` table: rows keyed by the primary key
`(source_id, sheet_name, row_number)`; the primary-key constraint makes
lookups by the triple return at most one record. -/
abbrev CacheDb := List ((String × String × Nat) × CacheRec)

/-- Embedding of `CacheStore.get_payload` (cache.py lines 56-91).  The SQL
SELECT filters on all five columns; with the primary key on the triple this
is: fetch the row for the triple, then require the two guard columns to
match.  `parseJson` stands for `json.loads`; a parse failure is logged and
`None` is returned (the `except json.JSONDecodeError` branch). -/
def get_payload {π : Type} (parseJson : String → Option π) (db : CacheDb)
    (source_id sheet_name : String) (row_number : Nat)
    (status_text comment_hash : String) : Option π :=
  match db.lookup (source_id, sheet_name, row_number) with
  | none => none
  | some record =>
      if record.status_text = status_text ∧ record.comment_hash = comment_hash then
        parseJson record.payload_json
      else
        none

/-- Embedding of `CacheStore.store_payload` (cache.py lines 93-137): an
upsert that fully replaces guard fields and payload for an existing
`(source_id, sheet_name, row_number)` key, otherwise inserts.  `dumps`
stands for `json.dumps(payload, ensure_ascii=False)`. -/
def store_payload {π : Type} (dumps : π → String) (db : CacheDb)
    (source_id sheet_name : String) (row_number : Nat)
    (status_text comment_hash : String) (payload : π) : CacheDb :=
  let key : String × String × Nat := (source_id, sheet_name, row_number)
  let record : CacheRec :=
    { status_text := status_text
      comment_hash := comment_hash
      payload_json := dumps payload }
  if (db.lookup key).isSome then
    db.map (fun kv => if kv.1 = key then (key, record) else kv)
  else
    db ++ [(key, record)]

/-! ## A small JSON value type

`json.loads` produces Python values (dict / list / str / bool / int / float
/ None).  The pipeline inspects those values structurally; the two Python
renderings it uses — `str(item)` and `json.dumps(value)` — are library
functions and therefore appear as parameters `pyStr` / `jsonDumps` below. -/

inductive Jv where
  | jnull : Jv
  | jbool : Bool → Jv
  | jnum : Int → Jv
  | jstr : String → Jv
  | jarr : List Jv → Jv
  | jobj : List (String × Jv) → Jv
  deriving Repr, BEq

/-- A parsed JSON object (Python dict): association list of fields. -/
abbrev JObj := List (String × Jv)

/-- Python truthiness (`bool(x)`) of a JSON-decoded value. -/
def pyTruthy : Jv → Bool
  | .jnull => false
  | .jbool b => b
  | .jnum n => n ≠ 0
  | .jstr s => s ≠ ""
  | .jarr l => !l.isEmpty
  | .jobj l => !l.isEmpty

/-! ## llm_client.py -/

/-- A chat message (Python dict with `role` and `content` keys). -/
structure Message where
  role : String
  content : String
  deriving Repr, DecidableEq

/-- Contiguous-sublist test on character lists, used to model Python's
substring operator. -/
def charsInfix (n : List Char) : List Char → Bool
  | [] => n.isEmpty
  | l@(_ :: rest) => n.isPrefixOf l || charsInfix n rest

/-- Python substring test `needle in haystack`. -/
def pyIn (needle haystack : String) : Bool :=
  charsInfix needle.toList haystack.toList

/-- Embedding of `_is_reasoning_unsupported_error` (llm_client.py lines
28-36), applied to `str(error)`. -/
def is_reasoning_unsupported_error (message : String) : Bool :=
  let m := pyLower message
  if !(pyIn "reasoning" m) then
    false
  else
    ["unsupported", "unknown", "not allowed", "invalid", "cannot"].any
      (fun keyword => pyIn keyword m)

/-- Embedding of `_is_prompt_cache_key_unsupported_error` (llm_client.py
lines 39-47), applied to `str(error)`. -/
def is_prompt_cache_key_unsupported_error (message : String) : Bool :=
  let m := pyLower message
  if !(pyIn "prompt_cache_key" m) then
    false
  else
    ["unsupported", "unknown", "not allowed", "invalid", "cannot"].any
      (fun keyword => pyIn keyword m)

/-- Embedding of `_append_system_hints` (llm_client.py lines 50-56). -/
def append_system_hints (messages : List Message) (hints : List String) : List Message :=
  messages ++ hints.map (fun hint => { role := "system", content := hint })

def RETRY_INVALID_JSON_MESSAGE : String :=
  "Предыдущий ответ не был валидным JSON. Ответь строго валидным JSON согласно схеме."

def RETRY_TRUNCATED_MESSAGE : String :=
  "Предыдущий ответ был обрезан из-за ограничений длины. Сократи формулировки, но сохрани структуру и верни валидный JSON."

def RETRY_MINIMAL_JSON_MESSAGE : String :=
  "Верни максимально короткий валидный JSON: лаконичные формулировки, без пояснительных текстов."

/-- Outcome of one `provider.client.chat.completions.create(...)` call, as
observed by `_generate_with_provider`.  The transport either raises
(`json.JSONDecodeError`, `APIError`, or any other exception, each carrying
its `str(exc)` message) or returns a response; of a returned response the
code only inspects whether `choices` is non-empty, the first choice's
`finish_reason`, its (possibly `None`) message content, and the result of
`json.loads` on the stripped content (`parsed`). -/
inductive CallResult (α : Type) where
  | raisedJsonDecode : String → CallResult α
  | raisedApiError : String → CallResult α
  | raisedOther : String → CallResult α
  | returned : Bool → Option String → Option String → Option α → CallResult α
  deriving Repr

/-- The attempt loop of `LLMClient._generate_with_provider` (llm_client.py
lines 210-362), `for attempt in range(1, max_attempts + 1)`, written with a
fuel argument counting the remaining iterations (so the 1-based `attempt`
number is `maxAttempts - fuel` when the remaining count is `fuel + 1`).
`oracle attempt reasoningEnabled promptCacheEnabled currentMessages` stands
for the provider call of that iteration; `messages` is the caller's
original message list, which the corrective-hint retries extend afresh each
time.  A `RuntimeError` raise is modelled as `Except.error` with the
formatted message. -/
def generation_attempts {α : Type} (oracle : Nat → Bool → Bool → List Message → CallResult α)
    (maxAttempts : Nat) (messages : List Message) :
    Nat → List Message → Bool → Bool → Option String → Except String α
  | 0, _, _, _, lastContent =>
      .error ("Failed to produce valid JSON after " ++ toString maxAttempts ++
        " attempts: " ++ lastContent.getD "")
  | fuel + 1, currentMessages, reasoningEnabled, promptCacheEnabled, lastContent =>
      let attempt := maxAttempts - fuel
      match oracle attempt reasoningEnabled promptCacheEnabled currentMessages with
      | .raisedJsonDecode _ =>
          if reasoningEnabled then
            generation_attempts oracle maxAttempts messages fuel
              currentMessages false promptCacheEnabled lastContent
          else
            .error "LLM response could not be parsed as JSON"
      | .raisedApiError msg =>
          if reasoningEnabled ∧ is_reasoning_unsupported_error msg then
            generation_attempts oracle maxAttempts messages fuel
              currentMessages false promptCacheEnabled lastContent
          else if promptCacheEnabled ∧ is_prompt_cache_key_unsupported_error msg then
            generation_attempts oracle maxAttempts messages fuel
              currentMessages reasoningEnabled false lastContent
          else
            .error ("LLM request failed: " ++ msg)
      | .raisedOther msg =>
          if reasoningEnabled ∧ pyIn "reasoning" (pyLower msg) then
            generation_attempts oracle maxAttempts messages fuel
              currentMessages false promptCacheEnabled lastContent
          else if promptCacheEnabled ∧ pyIn "prompt_cache_key" (pyLower msg) then
            generation_attempts oracle maxAttempts messages fuel
              currentMessages reasoningEnabled false lastContent
          else
            .error ("LLM request failed: " ++ msg)
      | .returned hasChoices finishReason rawContent parsed =>
          if !hasChoices then
            .error "LLM response does not contain choices"
          else
            let content := pyStrip (rawContent.getD "")
            let fr := finishReason.getD ""
            if fr ≠ "" ∧ fr ≠ "stop" then
              if fr = "length" ∧ attempt < maxAttempts then
                generation_attempts oracle maxAttempts messages fuel
                  (append_system_hints messages ([RETRY_TRUNCATED_MESSAGE] ++
                    (if attempt + 1 = maxAttempts then [RETRY_MINIMAL_JSON_MESSAGE] else [])))
                  reasoningEnabled promptCacheEnabled (some content)
              else
                .error ("LLM response ended prematurely (finish_reason=" ++ fr ++ "): " ++ content)
            else if content = "" then
              if attempt < maxAttempts then
                generation_attempts oracle maxAttempts messages fuel
                  (append_system_hints messages ([RETRY_INVALID_JSON_MESSAGE] ++
                    (if attempt + 1 = maxAttempts then [RETRY_MINIMAL_JSON_MESSAGE] else [])))
                  reasoningEnabled promptCacheEnabled (some content)
              else
                .error "LLM response is empty"
            else
              match parsed with
              | some payload => .ok payload
              | none =>
                  if attempt < maxAttempts then
                    generation_attempts oracle maxAttempts messages fuel
                      (append_system_hints messages ([RETRY_INVALID_JSON_MESSAGE] ++
                        (if attempt + 1 = maxAttempts then [RETRY_MINIMAL_JSON_MESSAGE] else [])))
                      reasoningEnabled promptCacheEnabled (some content)
                  else
                    .error ("Failed to parse LLM JSON response: " ++ content)

/-- A provider as built by `LLMClient._build_provider`: its display name,
resolved model identifier, configured `reasoning_enabled` flag and its
transport behaviour. -/
structure ProviderModel (α : Type) where
  displayName : String
  modelName : String
  reasoningEnabled : Bool
  oracle : Nat → Bool → Bool → List Message → CallResult α

/-- Embedding of `LLMClient._generate_with_provider` (llm_client.py lines
198-362): the loop starts at attempt 1 with the provider's configured
reasoning flag, prompt caching enabled exactly when a `prompt_cache_key`
was supplied, and no content seen yet. -/
def generate_with_provider {α : Type} (maxRetries : Nat) (provider : ProviderModel α)
    (messages : List Message) (promptCacheKey : Option String) : Except String α :=
  generation_attempts provider.oracle maxRetries messages maxRetries
    messages provider.reasoningEnabled promptCacheKey.isSome none

/-- The provider loop of `LLMClient.generate` (llm_client.py lines
120-136): try each provider in order, accumulating
`(display_name, str(exc))` pairs for the failed ones; the first success
wins and also records the serving provider's model name (the
`_last_model_name` update, returned here explicitly). -/
def generate_aux {α : Type} (maxRetries : Nat) (messages : List Message)
    (promptCacheKey : Option String) :
    List (ProviderModel α) → List (String × String) →
    Except (List (String × String)) (α × String)
  | [], acc => .error acc
  | provider :: rest, acc =>
      match generate_with_provider maxRetries provider messages promptCacheKey with
      | .error e => generate_aux maxRetries messages promptCacheKey rest
          (acc ++ [(provider.displayName, e)])
      | .ok payload => .ok (payload, provider.modelName)

/-- The aggregated failure text of `LLMClient.generate` (llm_client.py
lines 138-140): `", ".join(f"{name}: {message}" ...) or "no providers
produced a usable response"` (the join of an empty list is falsy). -/
def joined_provider_errors (pairs : List (String × String)) : String :=
  match pairs with
  | [] => "no providers produced a usable response"
  | _ => String.intercalate ", " (pairs.map (fun pr => pr.1 ++ ": " ++ pr.2))

/-- Embedding of `LLMClient.generate` (llm_client.py lines 108-141).  On
success it returns the parsed payload together with the model name that
`self._last_model_name` is set to; when every provider fails it raises the
aggregated `RuntimeError`. -/
def generate {α : Type} (maxRetries : Nat) (providers : List (ProviderModel α))
    (messages : List Message) (promptCacheKey : Option String) :
    Except String (α × String) :=
  match generate_aux maxRetries messages promptCacheKey providers [] with
  | .ok v => .ok v
  | .error pairs => .error ("All LLM providers failed: " ++ joined_provider_errors pairs)

/-! ## config.py provider ordering -/

/-- Embedding of `LLMConfig._validate_providers` (config.py lines 139-156):
the priority-keyed mapping is sorted ascending by priority and the sorted
priorities must be exactly `1..N`.  The returned (ordered) list is what
`provider_sequence` iterates. -/
def validate_providers {β : Type} (value : List (Nat × β)) : Except String (List (Nat × β)) :=
  if value.isEmpty then
    .error "At least one LLM provider must be configured"
  else
    let ordered := List.insertionSort (fun a b => a.1 ≤ b.1) value
    if ordered.map Prod.fst = List.range' 1 value.length then
      .ok ordered
    else
      .error "LLM provider priorities must be consecutive integers starting from 1"

/-- Provider configuration as seen by `LLMClient._build_provider`
(llm_client.py lines 143-196): the name, the API key and model identifier
after the explicit-value/environment-variable resolution, the reasoning
flag, and the provider's transport behaviour. -/
structure ProviderConf (α : Type) where
  name : Option String
  api_key : Option String
  model : Option String
  reasoning_enabled : Bool
  oracle : Nat → Bool → Bool → List Message → CallResult α

/-- Embedding of `LLMClient._build_provider`: compute the display name
(falling back to `provider-{priority}` when `name` is falsy) and skip the
provider (return `none`) when the resolved API key or model identifier is
falsy. -/
def build_provider {α : Type} (priority : Nat) (conf : ProviderConf α) :
    Option (ProviderModel α) :=
  let displayName :=
    if (conf.name.getD "") = "" then "provider-" ++ toString priority else conf.name.getD ""
  if (conf.api_key.getD "") = "" then
    none
  else if (conf.model.getD "") = "" then
    none
  else
    some { displayName := displayName
           modelName := conf.model.getD ""
           reasoningEnabled := conf.reasoning_enabled
           oracle := conf.oracle }

/-- The provider list assembled by `LLMClient.__init__` (llm_client.py
lines 83-98) from the validated, priority-ordered sequence. -/
def build_providers {α : Type} (sequence : List (Nat × ProviderConf α)) :
    List (ProviderModel α) :=
  sequence.filterMap (fun pc => build_provider pc.1 pc.2)

/-! ## models.py and pipeline.py -/

/-- Embedding of `StatusEntry` (models.py lines 7-18).  `row_index`,
`project_manager` and the raw `source_values` dict are not modelled (no
claim touches them); `hasIdentifierColumn` captures the per-entry test
`bool(config.columns.identifier) and config.columns.identifier in
entry.source_values` used by main.py line 286-288. -/
structure StatusEntry where
  row_number : Nat
  status_text : String
  comment_text : String
  completion_date : Option String
  identifier : Option String
  hasIdentifierColumn : Bool
  deriving Repr, DecidableEq

/-- Embedding of `ValidationResult` (models.py lines 21-30). -/
structure ValidationResult where
  row_number : Nat
  source_url : String
  is_valid : Bool
  issues : String
  rewrite_suggestion : String
  raw_response : JObj
  deriving Repr

/-- An apostrophe character, written without a literal quote. -/
def sq : String := String.singleton (Char.ofNat 39)

/-- The `extra_note` f-string of `build_result_from_payload` (pipeline.py
lines 150-153). -/
def allowed_note (allowed_statuses : List String) (status_text : String) : String :=
  "Status value " ++ sq ++ status_text ++ sq ++ " is outside the allowed list: " ++
    String.intercalate ", " allowed_statuses

/-- The `issues_items` extraction of `build_result_from_payload`
(pipeline.py lines 141-147): a string becomes a singleton, a list is
`str()`-rendered and filtered to entries whose stripped text is non-empty,
anything else is `json.dumps`-rendered whole. -/
def issues_items_of (pyStr jsonDumps : Jv → String) (payload : JObj) : List String :=
  match (payload.lookup "issues").getD (.jarr []) with
  | .jstr s => [s]
  | .jarr items => (items.map pyStr).filter (fun s => pyStrip s != "")
  | other => [jsonDumps other]

/-- The `issues_items` list after the allowed-status note logic
(pipeline.py lines 149-155): with a non-empty allowed list and a status
outside it, the note is appended unless already present. -/
def issues_items_final (pyStr jsonDumps : Jv → String) (allowed_statuses : List String)
    (status_text : String) (payload : JObj) : List String :=
  let issues_items := issues_items_of pyStr jsonDumps payload
  if allowed_statuses ≠ [] ∧ status_text ∉ allowed_statuses then
    let extra_note := allowed_note allowed_statuses status_text
    if extra_note ∈ issues_items then issues_items else issues_items ++ [extra_note]
  else
    issues_items

/-- The `rewrite` extraction of `build_result_from_payload` (pipeline.py
lines 159-161): `payload.get("rewrite_suggestion", "")`, `json.dumps`-ed
when not a string. -/
def rewrite_of (jsonDumps : Jv → String) (payload : JObj) : String :=
  match payload.lookup "rewrite_suggestion" with
  | some (.jstr s) => s
  | some v => jsonDumps v
  | none => ""

/-- The `is_valid` computation of `build_result_from_payload` (pipeline.py
lines 163-165): `bool(payload.get("is_valid", False))`, forced to `False`
when the status is outside a non-empty allowed list. -/
def is_valid_of (allowed_statuses : List String) (status_text : String) (payload : JObj) : Bool :=
  let is_valid := pyTruthy ((payload.lookup "is_valid").getD (.jbool false))
  if allowed_statuses ≠ [] ∧ status_text ∉ allowed_statuses then false else is_valid

/-- Embedding of `build_result_from_payload` (pipeline.py lines 135-176).
`build_row_url` stands for `sheets_client.build_row_url`. -/
def build_result_from_payload (pyStr jsonDumps : Jv → String) (allowed_statuses : List String)
    (build_row_url : Nat → String) (entry : StatusEntry) (payload : JObj) : ValidationResult :=
  let issues_items := issues_items_final pyStr jsonDumps allowed_statuses entry.status_text payload
  { row_number := entry.row_number
    source_url := build_row_url entry.row_number
    is_valid := is_valid_of allowed_statuses entry.status_text payload
    issues := String.intercalate "\n" (issues_items.map (fun item => "- " ++ item))
    rewrite_suggestion := rewrite_of jsonDumps payload
    raw_response := payload }

/-! ## parallel.py -/

/-- Embedding of `validate_batch_parallel` (parallel.py lines 77-174).
`completionOrder` is the order in which `as_completed` yields the futures —
an arbitrary permutation of the submitted entries; `outcome entry` is the
result component of `validate_entry_with_retry` for that entry (`none` when
it reported an error).  Successes and failures are collected in completion
order, then the successes are sorted ascending by `row_number` (line 172;
Python `list.sort` is stable, modelled by the stable `List.insertionSort`). -/
def validate_batch_parallel (outcome : StatusEntry → Option ValidationResult)
    (completionOrder : List StatusEntry) :
    List (StatusEntry × ValidationResult) × List StatusEntry :=
  let successful_results :=
    completionOrder.filterMap (fun e => (outcome e).map (fun r => (e, r)))
  let failed_entries := completionOrder.filter (fun e => (outcome e).isNone)
  (List.insertionSort (fun a b => a.1.row_number ≤ b.1.row_number) successful_results,
    failed_entries)

/-! ## main.py -/

/-- Embedding of `_normalize_identifier` (main.py lines 33-34); Python
`str.casefold` is modelled by `String.toLower`. -/
def normalize_identifier (value : Option String) : String :=
  pyLower (pyStrip (value.getD ""))

/-- The stale-check-date forcing decision of `main` (main.py lines
296-334), for one row, given the row's previously recorded check-date cell
and the remaining `checkdate_force_remaining` budget.  `parse_check_date`
stands for `_parse_check_date_value` (datetime.strptime on the two accepted
formats, with datetimes placed on an integer timeline) and
`current_week_start` for the Monday-midnight bound computed at lines
274-278.  Returns `(should_force_current, new remaining budget)`. -/
def checkdate_force_decision (parse_check_date : String → Option Int)
    (current_week_start : Int) (existing_check_date_value : Option String)
    (remaining : Nat) : Bool × Nat :=
  let force_without_limit_info : Option Bool :=
    if pyStrip (existing_check_date_value.getD "") = "" then
      some true
    else
      match parse_check_date (existing_check_date_value.getD "") with
      | none => some false
      | some parsed_check_date =>
          if parsed_check_date < current_week_start then some false else none
  match force_without_limit_info with
  | none => (false, remaining)
  | some force_without_limit =>
      if force_without_limit ∨ remaining > 0 then
        (true, if force_without_limit then remaining else remaining - 1)
      else
        (false, remaining)

/-- Run-wide context of the `main` row loop: CLI flags, config values, the
snapshot-derived lookup maps built at main.py lines 216-271, the run's
`check_date` stamp (line 153), and the external collaborators (hashing,
JSON codec, URL building, and `validate_entry`'s provider call, the latter
returning the payload together with the `llm_client.model_name` recorded by
the successful call). -/
structure MainCtx where
  force : Bool
  checkdate : Bool
  dry_run : Bool
  use_identifier_updates : Bool
  source_spreadsheet_id : String
  source_sheet_name : String
  allowed_statuses : List String
  check_date : String
  current_week_start : Int
  parse_check_date : String → Option Int
  existing_check_date_by_identifier : String → Option String
  existing_check_date_by_row_number : Nat → Option String
  existing_model_by_identifier : String → Option String
  existing_model_by_row_number : Nat → Option String
  sha256hex : String → String
  parseJson : String → Option JObj
  jsonDumps : Jv → String
  pyStr : Jv → String
  build_row_url : Nat → String
  validate_oracle : StatusEntry → Except String (JObj × String)

/-- The mutable accumulators of the `main` row loop (main.py lines
135-146, 272). -/
structure RunState where
  results : List ValidationResult
  processed_entries : List StatusEntry
  processed_check_dates : List (Option String)
  processed_model_names : List (Option String)
  failed_entries : List StatusEntry
  skipped_missing_identifier : List StatusEntry
  write_entries : List StatusEntry
  write_results : List ValidationResult
  write_check_dates : List String
  write_model_names : List (Option String)
  checkdate_force_remaining : Nat
  cache : CacheDb

/-- The bookkeeping shared by both the cached and the fresh branch of the
row loop (main.py lines 385-397): append to the processed lists and, when a
fresh check date was stamped in upsert mode outside a dry run, also to the
write queue. -/
def append_processed (ctx : MainCtx) (s : RunState) (entry : StatusEntry)
    (result : ValidationResult) (entry_check_date : Option String)
    (entry_model_value : Option String) (remaining : Nat) (cache' : CacheDb) : RunState :=
  let s1 : RunState :=
    { s with
      results := s.results ++ [result]
      processed_entries := s.processed_entries ++ [entry]
      processed_check_dates := s.processed_check_dates ++ [entry_check_date]
      processed_model_names := s.processed_model_names ++ [entry_model_value]
      checkdate_force_remaining := remaining
      cache := cache' }
  if entry_check_date.isSome ∧ ctx.use_identifier_updates ∧ ¬ctx.dry_run then
    { s1 with
      write_entries := s1.write_entries ++ [entry]
      write_results := s1.write_results ++ [result]
      write_check_dates := s1.write_check_dates ++ [entry_check_date.getD ""]
      write_model_names := s1.write_model_names ++ [entry_model_value] }
  else
    s1

/-- The stale-check-date forcing step of the row loop (main.py lines
296-334): under `--checkdate`, the recorded check date is looked up by
normalized identifier first and by source row number second, and the
budgeted forcing decision is taken. -/
def row_force_decision (ctx : MainCtx) (s : RunState) (entry : StatusEntry) : Bool × Nat :=
  if ctx.checkdate then
    let normalized_identifier := normalize_identifier entry.identifier
    let by_identifier :=
      if normalized_identifier ≠ "" then
        ctx.existing_check_date_by_identifier normalized_identifier
      else
        none
    let existing_check_date_value :=
      match by_identifier with
      | none => ctx.existing_check_date_by_row_number entry.row_number
      | some v => some v
    checkdate_force_decision ctx.parse_check_date ctx.current_week_start
      existing_check_date_value s.checkdate_force_remaining
  else
    (false, s.checkdate_force_remaining)

/-- The cache consultation of the row loop (main.py lines 336-345): the
lookup happens only when neither `--force` nor the stale-check-date policy
bypasses it, keyed by source id, sheet, row number, status text and the
comment fingerprint. -/
def row_cached_payload (ctx : MainCtx) (s : RunState) (entry : StatusEntry) : Option JObj :=
  if ¬ctx.force ∧ ¬(row_force_decision ctx s entry).1 then
    get_payload ctx.parseJson s.cache ctx.source_spreadsheet_id ctx.source_sheet_name
      entry.row_number entry.status_text
      (compute_comment_hash ctx.sha256hex (some entry.comment_text))
  else
    none

/-- One iteration of the `for entry in batch` loop of `main` (main.py
lines 283-397): skip on blank identifier, decide stale-check-date forcing,
consult the cache unless bypassed, then either rebuild the verdict from the
cached payload (backfilling the model from the identifier-keyed then
row-number-keyed history and leaving the check date unset) or call the
provider (a raise records the row as failed and moves on; a success stamps
the run's check date and model and upserts the cache). -/
def process_row (ctx : MainCtx) (s : RunState) (entry : StatusEntry) : RunState :=
  let normalized_identifier := normalize_identifier entry.identifier
  if entry.hasIdentifierColumn ∧ normalized_identifier = "" then
    { s with skipped_missing_identifier := s.skipped_missing_identifier ++ [entry] }
  else
    let remaining := (row_force_decision ctx s entry).2
    let comment_hash := compute_comment_hash ctx.sha256hex (some entry.comment_text)
    match row_cached_payload ctx s entry with
    | some payload =>
        let result := build_result_from_payload ctx.pyStr ctx.jsonDumps
          ctx.allowed_statuses ctx.build_row_url entry payload
        let by_identifier :=
          if normalized_identifier ≠ "" then
            ctx.existing_model_by_identifier normalized_identifier
          else
            none
        let entry_model_value :=
          match by_identifier with
          | none => ctx.existing_model_by_row_number entry.row_number
          | some v => some v
        append_processed ctx s entry result none entry_model_value remaining s.cache
    | none =>
        match ctx.validate_oracle entry with
        | .error _ =>
            { s with
              failed_entries := s.failed_entries ++ [entry]
              checkdate_force_remaining := remaining }
        | .ok (payload, model_name) =>
            let result := build_result_from_payload ctx.pyStr ctx.jsonDumps
              ctx.allowed_statuses ctx.build_row_url entry payload
            let cache' := store_payload (fun p => ctx.jsonDumps (.jobj p)) s.cache
              ctx.source_spreadsheet_id ctx.source_sheet_name entry.row_number
              entry.status_text comment_hash payload
            append_processed ctx s entry result (some ctx.check_date)
              (some model_name) remaining cache'

/-- The row loop of `main` over a list of entries.  Batching (main.py line
280) only changes where flushes happen, not the per-row processing, so the
concatenation of all batches is processed by this fold. -/
def process_rows (ctx : MainCtx) (entries : List StatusEntry) (s : RunState) : RunState :=
  entries.foldl (process_row ctx) s

/-- The `check_dates_for_rows` backfill of the append/overwrite flush
(main.py lines 568-580): a `None` stamp at output offset `idx` is replaced
by `existing_row_check_dates[last_written_total_count + idx]`, the
check-date column of the destination-table snapshot at the same physical
position, or `None` when out of range. -/
def check_dates_for_rows (new_check_dates : List (Option String))
    (existing_row_check_dates : List String)
    (last_written_total_count : Nat) : List (Option String) :=
  new_check_dates.enum.map (fun p =>
    match p.2 with
    | some date_value => some date_value
    | none => existing_row_check_dates[last_written_total_count + p.1]?)

/-- The `model_names_for_rows` backfill of the append/overwrite flush
(main.py lines 581-591), positionally like `check_dates_for_rows`. -/
def model_names_for_rows (new_model_names : List (Option String))
    (existing_row_model_values : List String)
    (last_written_total_count : Nat) : List (Option String) :=
  new_model_names.enum.map (fun p =>
    match p.2 with
    | some model_value => some model_value
    | none => existing_row_model_values[last_written_total_count + p.1]?)

/-- Modelled from the spec: the backfill rule the specification states for
cache-reused rows — "backfill with the previously recorded check date ...
for that identifier/row, falling back between identifier-keyed and
row-number-keyed history".  Used only to compare the claimed behaviour with
the code's positional backfill. -/
def spec_backfill_check_date (by_identifier : String → Option String)
    (by_row_number : Nat → Option String) (normalized_identifier : String)
    (row_number : Nat) : Option String :=
  match (if normalized_identifier ≠ "" then by_identifier normalized_identifier else none) with
  | none => by_row_number row_number
  | some v => some v

/-! ## Theorems -/

/-- C8: `compute_comment_hash` is determined by the trimmed comment text —
any two comments with identical trimmed text get identical fingerprints,
and an absent (`None`) or empty comment hashes to the fingerprint of the
empty string. -/
theorem C8_comment_hash_trimmed (sha256hex : String → String) (c1 c2 : Option String)
    (h : pyStrip (c1.getD "") = pyStrip (c2.getD "")) :
    compute_comment_hash sha256hex c1 = compute_comment_hash sha256hex c2 ∧
    compute_comment_hash sha256hex none = sha256hex "" ∧
    compute_comment_hash sha256hex (some "") = sha256hex "" := by
  refine ⟨?_, ?_, ?_⟩
  · unfold compute_comment_hash
    rw [h]
  · rfl
  · rfl

/-- Witness for C8 at concrete inputs. -/
theorem C8_comment_hash_trimmed_witness :
    compute_comment_hash (fun s => s ++ "|") (some "  status ok  ") =
      compute_comment_hash (fun s => s ++ "|") (some "status ok") ∧
    compute_comment_hash (fun s => s ++ "|") none = (fun s => s ++ "|") "" ∧
    compute_comment_hash (fun s => s ++ "|") (some "") = (fun s => s ++ "|") "" :=
  C8_comment_hash_trimmed (fun s => s ++ "|") (some "  status ok  ") (some "status ok")
    (by decide)

/-- C4: `CacheStore.get_payload` returns the stored payload exactly when
all five key fields match the stored record and the stored payload parses
as JSON; a mismatch in any field, or an unparseable stored payload, gives
`none` (the function is total, so no exception escapes). -/
theorem C4_get_payload_exact_match {π : Type} (parseJson : String → Option π) (db : CacheDb)
    (source_id sheet_name : String) (row_number : Nat) (status_text comment_hash : String) :
    (∀ p : π,
      get_payload parseJson db source_id sheet_name row_number status_text comment_hash =
        some p ↔
      ∃ record, db.lookup (source_id, sheet_name, row_number) = some record ∧
        record.status_text = status_text ∧ record.comment_hash = comment_hash ∧
        parseJson record.payload_json = some p) ∧
    (∀ record, db.lookup (source_id, sheet_name, row_number) = some record →
      record.status_text ≠ status_text ∨ record.comment_hash ≠ comment_hash →
      get_payload parseJson db source_id sheet_name row_number status_text comment_hash =
        none) ∧
    (∀ record, db.lookup (source_id, sheet_name, row_number) = some record →
      parseJson record.payload_json = none →
      get_payload parseJson db source_id sheet_name row_number status_text comment_hash =
        none) := by
  cases hl : db.lookup (source_id, sheet_name, row_number) with
  | none =>
      refine ⟨fun p => ?_, fun record hr => ?_, fun record hr => ?_⟩
      · simp [get_payload, hl]
      · simp_all
      · simp_all
  | some record =>
      by_cases hc : record.status_text = status_text ∧ record.comment_hash = comment_hash
      · refine ⟨fun p => ?_, fun record' hr hne => ?_, fun record' hr hp => ?_⟩
        · simp only [get_payload, hl, hc, if_true]
          constructor
          · intro hp
            exact ⟨record, rfl, hc.1, hc.2, hp⟩
          · rintro ⟨r', hr', h1, h2, hp⟩
            cases hr'
            exact hp
        · cases hr
          rcases hne with hne | hne
          · exact absurd hc.1 hne
          · exact absurd hc.2 hne
        · cases hr
          simp [get_payload, hl, hc, hp]
      · refine ⟨fun p => ?_, fun record' hr hne => ?_, fun record' hr hp => ?_⟩
        · simp only [get_payload, hl, hc, if_false]
          constructor
          · intro h
            exact Option.noConfusion h
          · rintro ⟨r', hr', h1, h2, hp⟩
            cases hr'
            exact absurd ⟨h1, h2⟩ hc
        · cases hr
          simp [get_payload, hl, hc]
        · cases hr
          simp [get_payload, hl, hc]

/-- Witness for C4 at concrete inputs: exact match, guard-field mismatch,
and an unparseable stored payload. -/
theorem C4_get_payload_exact_match_witness :
    get_payload (fun s => some s) [(("s", "t", 1), ⟨"Done", "h", "PAYLOAD"⟩)]
      "s" "t" 1 "Done" "h" = some "PAYLOAD" ∧
    get_payload (fun s => some s) [(("s", "t", 1), ⟨"Done", "h", "PAYLOAD"⟩)]
      "s" "t" 1 "Late" "h" = none ∧
    get_payload (fun _ => (none : Option String)) [(("s", "t", 1), ⟨"Done", "h", "PAYLOAD"⟩)]
      "s" "t" 1 "Done" "h" = none := by
  refine ⟨?_, ?_, ?_⟩
  · exact ((C4_get_payload_exact_match (fun s => some s)
      [(("s", "t", 1), ⟨"Done", "h", "PAYLOAD"⟩)] "s" "t" 1 "Done" "h").1 "PAYLOAD").mpr
      ⟨⟨"Done", "h", "PAYLOAD"⟩, by decide, rfl, rfl, rfl⟩
  · exact (C4_get_payload_exact_match (fun s => some s)
      [(("s", "t", 1), ⟨"Done", "h", "PAYLOAD"⟩)] "s" "t" 1 "Late" "h").2.1
      ⟨"Done", "h", "PAYLOAD"⟩ (by decide) (Or.inl (by decide))
  · exact (C4_get_payload_exact_match (fun _ => (none : Option String))
      [(("s", "t", 1), ⟨"Done", "h", "PAYLOAD"⟩)] "s" "t" 1 "Done" "h").2.2
      ⟨"Done", "h", "PAYLOAD"⟩ (by decide) rfl

/-- C10: with a non-empty allowed-status list and a status outside it,
`build_result_from_payload` forces `is_valid` to `False` regardless of the
payload's `is_valid` field, and the note naming the disallowed status
appears in the issues list exactly `max 1 (prior count)` times — appended
once when absent, not duplicated when the payload already contains it. -/
theorem C10_disallowed_status (pyStr jsonDumps : Jv → String)
    (allowed_statuses : List String) (build_row_url : Nat → String)
    (entry : StatusEntry) (payload : JObj)
    (hne : allowed_statuses ≠ []) (hout : entry.status_text ∉ allowed_statuses) :
    (build_result_from_payload pyStr jsonDumps allowed_statuses build_row_url
      entry payload).is_valid = false ∧
    allowed_note allowed_statuses entry.status_text ∈
      issues_items_final pyStr jsonDumps allowed_statuses entry.status_text payload ∧
    (issues_items_final pyStr jsonDumps allowed_statuses entry.status_text payload).count
        (allowed_note allowed_statuses entry.status_text) =
      max 1 ((issues_items_of pyStr jsonDumps payload).count
        (allowed_note allowed_statuses entry.status_text)) := by
  refine ⟨?_, ?_, ?_⟩
  · simp [build_result_from_payload, is_valid_of, hne, hout]
  · by_cases hmem : allowed_note allowed_statuses entry.status_text ∈
        issues_items_of pyStr jsonDumps payload
    · simp [issues_items_final, hne, hout, hmem]
    · simp [issues_items_final, hne, hout, hmem]
  · by_cases hmem : allowed_note allowed_statuses entry.status_text ∈
        issues_items_of pyStr jsonDumps payload
    · have hpos : 0 < (issues_items_of pyStr jsonDumps payload).count
          (allowed_note allowed_statuses entry.status_text) :=
        List.count_pos_iff.mpr hmem
      simp only [issues_items_final, hne, hout, hmem]
      simp only [ne_eq, hne, not_false_eq_true, hout, and_self, if_true, hmem, ite_true]
      exact (Nat.max_eq_right hpos).symm

    · have hzero : (issues_items_of pyStr jsonDumps payload).count
          (allowed_note allowed_statuses entry.status_text) = 0 :=
        List.count_eq_zero.mpr hmem
      simp only [issues_items_final, hne, hout, hmem]
      simp only [ne_eq, hne, not_false_eq_true, hout, and_self, if_true, hmem, ite_false]
      rw [List.count_append, hzero]
      simp

/-- Witness for C10 at concrete inputs. -/
theorem C10_disallowed_status_witness :
    (build_result_from_payload (fun _ => "x") (fun _ => "y") ["Done"] (fun _ => "url")
      { row_number := 2, status_text := "WIP", comment_text := "c",
        completion_date := none, identifier := none, hasIdentifierColumn := false }
      [("is_valid", .jbool true)]).is_valid = false ∧
    allowed_note ["Done"] "WIP" ∈
      issues_items_final (fun _ => "x") (fun _ => "y") ["Done"] "WIP"
        [("is_valid", .jbool true)] ∧
    (issues_items_final (fun _ => "x") (fun _ => "y") ["Done"] "WIP"
        [("is_valid", .jbool true)]).count (allowed_note ["Done"] "WIP") =
      max 1 ((issues_items_of (fun _ => "x") (fun _ => "y")
        [("is_valid", .jbool true)]).count (allowed_note ["Done"] "WIP")) :=
  C10_disallowed_status (fun _ => "x") (fun _ => "y") ["Done"] (fun _ => "url")
    { row_number := 2, status_text := "WIP", comment_text := "c",
      completion_date := none, identifier := none, hasIdentifierColumn := false }
    [("is_valid", .jbool true)] (by decide) (by decide)

/-- C3 counterexample: the claim says a row whose recorded check date is
present but unparseable is always forced with no per-run limit; in the code
such a row consumes the budget and, once the budget is spent (remaining
budget 0), is not forced at all — unlike a missing check date, which stays
forced. -/
theorem C3_checkdate_unparseable_counterexample :
    checkdate_force_decision (fun _ => none) 0 (some "31/12/2020") 0 = (false, 0) ∧
    checkdate_force_decision (fun _ => none) 0 none 0 = (true, 0) :=
  ⟨rfl, rfl⟩

/-- C3 amended: with the stale-check-date policy, a missing/blank check
date is always forced without touching the budget; a present-but-
unparseable check date and a check date parsing before the start of the
current week are both forced only while the one-row budget is unspent, each
forcing consuming the budget; a fresh check date is not forced.  In the
spec's scenario (budget 1, two stale rows then a missing one) only the
first stale row and the missing row are forced. -/
theorem C3_checkdate_policy_amended (parse : String → Option Int) (ws : Int) (r : Nat) :
    (∀ v : Option String, pyStrip (v.getD "") = "" →
      checkdate_force_decision parse ws v r = (true, r)) ∧
    (∀ s : String, pyStrip s ≠ "" → parse s = none →
      checkdate_force_decision parse ws (some s) r =
        (if 0 < r then (true, r - 1) else (false, r))) ∧
    (∀ s d, pyStrip s ≠ "" → parse s = some d → d < ws →
      checkdate_force_decision parse ws (some s) r =
        (if 0 < r then (true, r - 1) else (false, r))) ∧
    (∀ s d, pyStrip s ≠ "" → parse s = some d → ¬d < ws →
      checkdate_force_decision parse ws (some s) r = (false, r)) ∧
    (∀ s1 s2 d1 d2, pyStrip s1 ≠ "" → pyStrip s2 ≠ "" →
      parse s1 = some d1 → d1 < ws → parse s2 = some d2 → d2 < ws →
      (checkdate_force_decision parse ws (some s1) 1).1 = true ∧
      (checkdate_force_decision parse ws (some s2)
        (checkdate_force_decision parse ws (some s1) 1).2).1 = false ∧
      (checkdate_force_decision parse ws none
        (checkdate_force_decision parse ws (some s2)
          (checkdate_force_decision parse ws (some s1) 1).2).2).1 = true) := by
  refine ⟨?_, ?_, ?_, ?_, ?_⟩
  · intro v hv
    unfold checkdate_force_decision
    simp [hv]
  · intro s hs hp
    unfold checkdate_force_decision
    simp only [Option.getD_some, hs, if_false, hp]
    by_cases hr : 0 < r
    · simp [hr, Nat.pos_iff_ne_zero.mp hr]
    · simp [hr, Nat.le_zero.mp (Nat.not_lt.mp hr)]
  · intro s d hs hp hd
    unfold checkdate_force_decision
    simp only [Option.getD_some, hs, if_false, hp, hd, if_true]
    by_cases hr : 0 < r
    · simp [hr]
    · simp [hr, Nat.le_zero.mp (Nat.not_lt.mp hr)]
  · intro s d hs hp hd
    unfold checkdate_force_decision
    simp [hs, hp, hd]
  · intro s1 s2 d1 d2 hs1 hs2 hp1 hd1 hp2 hd2
    have h1 : checkdate_force_decision parse ws (some s1) 1 = (true, 0) := by
      unfold checkdate_force_decision
      simp [hs1, hp1, hd1]
    have h2 : checkdate_force_decision parse ws (some s2) 0 = (false, 0) := by
      unfold checkdate_force_decision
      simp [hs2, hp2, hd2]
    have h3 : checkdate_force_decision parse ws none 0 = (true, 0) := rfl
    rw [h1]
    rw [h2]
    simp [h2, h3]

/-- Witness for C3 (amended) at concrete inputs. -/
theorem C3_checkdate_policy_amended_witness :
    checkdate_force_decision (fun s => if s = "old" then some (-5) else none) 0
      (some "  ") 0 = (true, 0) ∧
    checkdate_force_decision (fun s => if s = "old" then some (-5) else none) 0
      (some "junk") 0 = (false, 0) ∧
    (checkdate_force_decision (fun s => if s = "old" then some (-5) else none) 0
      (some "old") 1).1 = true := by
  refine ⟨?_, ?_, ?_⟩
  · exact (C3_checkdate_policy_amended (fun s => if s = "old" then some (-5) else none)
      0 0).1 (some "  ") (by decide)
  · have h := (C3_checkdate_policy_amended (fun s => if s = "old" then some (-5) else none)
      0 0).2.1 "junk" (by decide) (by decide)
    simpa using h
  · have h := (C3_checkdate_policy_amended (fun s => if s = "old" then some (-5) else none)
      0 1).2.2.1 "old" (-5) (by decide) (by decide) (by decide)
    rw [h]
    simp

/-- A provider transport that rejects the reasoning feature whenever the
reasoning hint is enabled and succeeds once it is disabled. -/
def C2oracle : Nat → Bool → Bool → List Message → CallResult Nat :=
  fun _ reasoningEnabled _ _ =>
    if reasoningEnabled then
      .raisedApiError "Error code 400: reasoning is an unsupported parameter for this model"
    else
      .returned true (some "stop") (some "{}") (some 7)

/-- C2 counterexample: the claim says a feature-rejection retry does not
count against the provider's `max_retries` budget.  With `max_retries = 1`
and a provider that rejects the reasoning hint but would succeed with it
disabled, the claim predicts success; the code instead consumes the only
attempt on the rejection and fails the provider. -/
theorem C2_feature_retry_counterexample :
    generate_with_provider 1
      { displayName := "p1", modelName := "m1", reasoningEnabled := true, oracle := C2oracle }
      [] none = .error "Failed to produce valid JSON after 1 attempts: " ∧
    C2oracle 2 false false [] = .returned true (some "stop") (some "{}") (some 7) :=
  ⟨rfl, rfl⟩

/-- C2 amended: on a recognizable unsupported-feature error the client
disables that single feature for the provider and reissues the same
request, but the reissue consumes one attempt of the `max_retries` budget
(a rejection on the final attempt therefore exhausts the provider); every
other request failure on the provider stops its loop at once, and a failed
provider is appended to the error log and the next provider is tried. -/
theorem C2_feature_retry_amended {α : Type}
    (oracle : Nat → Bool → Bool → List Message → CallResult α)
    (maxAttempts fuel : Nat) (messages currentMessages : List Message)
    (promptCacheEnabled reasoningEnabled : Bool) (lastContent : Option String)
    (msg : String) :
    (oracle (maxAttempts - fuel) true promptCacheEnabled currentMessages =
        .raisedApiError msg →
      is_reasoning_unsupported_error msg = true →
      generation_attempts oracle maxAttempts messages (fuel + 1) currentMessages true
        promptCacheEnabled lastContent =
      generation_attempts oracle maxAttempts messages fuel currentMessages false
        promptCacheEnabled lastContent) ∧
    (oracle (maxAttempts - fuel) reasoningEnabled true currentMessages =
        .raisedApiError msg →
      ¬(reasoningEnabled = true ∧ is_reasoning_unsupported_error msg = true) →
      is_prompt_cache_key_unsupported_error msg = true →
      generation_attempts oracle maxAttempts messages (fuel + 1) currentMessages
        reasoningEnabled true lastContent =
      generation_attempts oracle maxAttempts messages fuel currentMessages
        reasoningEnabled false lastContent) ∧
    (oracle (maxAttempts - fuel) reasoningEnabled promptCacheEnabled currentMessages =
        .raisedApiError msg →
      ¬(reasoningEnabled = true ∧ is_reasoning_unsupported_error msg = true) →
      ¬(promptCacheEnabled = true ∧ is_prompt_cache_key_unsupported_error msg = true) →
      generation_attempts oracle maxAttempts messages (fuel + 1) currentMessages
        reasoningEnabled promptCacheEnabled lastContent =
      .error ("LLM request failed: " ++ msg)) ∧
    (∀ (provider : ProviderModel α) (rest : List (ProviderModel α))
      (acc : List (String × String)) (e : String) (maxRetries : Nat)
      (pck : Option String),
      generate_with_provider maxRetries provider messages pck = .error e →
      generate_aux maxRetries messages pck (provider :: rest) acc =
        generate_aux maxRetries messages pck rest (acc ++ [(provider.displayName, e)])) := by
  refine ⟨?_, ?_, ?_, ?_⟩
  · intro h h2
    rw [generation_attempts]
    simp only [h, h2]
    simp
  · intro h hr h2
    rw [generation_attempts]
    simp only [h, h2]
    simp [hr]
  · intro h hr hp
    rw [generation_attempts]
    simp only [h]
    simp [hr, hp]
  · intro provider rest acc e maxRetries pck hgen
    rw [generate_aux]
    simp only [hgen]

/-- Witness for C2 (amended) at concrete inputs: a reasoning rejection on
attempt 1 of 2 continues with reasoning disabled and one attempt left, and
a provider-level failure is logged and the loop moves on. -/
theorem C2_feature_retry_amended_witness :
    generation_attempts C2oracle 2 [] 2 [] true false none =
      generation_attempts C2oracle 2 [] 1 [] false false none ∧
    generate_aux 1 [] none
      [{ displayName := "p1", modelName := "m1", reasoningEnabled := true, oracle := C2oracle }]
      [] =
    generate_aux 1 [] none []
      [("p1", "Failed to produce valid JSON after 1 attempts: ")] := by
  constructor
  · exact (C2_feature_retry_amended C2oracle 2 1 [] [] false true none
      "Error code 400: reasoning is an unsupported parameter for this model").1
      rfl (by decide)
  · exact (C2_feature_retry_amended C2oracle 2 1 [] [] false true none
      "Error code 400: reasoning is an unsupported parameter for this model").2.2.2
      { displayName := "p1", modelName := "m1", reasoningEnabled := true, oracle := C2oracle }
      [] [] "Failed to produce valid JSON after 1 attempts: " 1 none rfl

/-- Helper: when every provider of the list fails with error `E q`, the
provider loop returns the accumulated `(display name, error)` pairs in
order. -/
theorem generate_aux_all_fail {α : Type} (maxRetries : Nat) (messages : List Message)
    (pck : Option String) (E : ProviderModel α → String) :
    ∀ (providers : List (ProviderModel α)) (acc : List (String × String)),
      (∀ q ∈ providers, generate_with_provider maxRetries q messages pck = .error (E q)) →
      generate_aux maxRetries messages pck providers acc =
        .error (acc ++ providers.map (fun q => (q.displayName, E q))) := by
  intro providers
  induction providers with
  | nil =>
      intro acc _
      simp [generate_aux]
  | cons p rest ih =>
      intro acc h
      have hp := h p (List.mem_cons_self p rest)
      rw [generate_aux]
      simp only [hp]
      rw [ih (acc ++ [(p.displayName, E p)])
        (fun q hq => h q (List.mem_cons_of_mem p hq))]
      simp

/-- Helper: when every provider before `provider` fails and `provider`
succeeds, the provider loop returns its payload and model name regardless
of the providers after it. -/
theorem generate_aux_first_success {α : Type} (maxRetries : Nat) (messages : List Message)
    (pck : Option String) (payload : α) (provider : ProviderModel α) :
    ∀ (pre post : List (ProviderModel α)) (acc : List (String × String)),
      (∀ q ∈ pre, ∃ e, generate_with_provider maxRetries q messages pck = .error e) →
      generate_with_provider maxRetries provider messages pck = .ok payload →
      generate_aux maxRetries messages pck (pre ++ provider :: post) acc =
        .ok (payload, provider.modelName) := by
  intro pre
  induction pre with
  | nil =>
      intro post acc _ hok
      rw [List.nil_append, generate_aux]
      simp only [hok]
  | cons q pre' ih =>
      intro post acc hpre hok
      obtain ⟨e, he⟩ := hpre q (List.mem_cons_self q pre')
      rw [List.cons_append, generate_aux]
      simp only [he]
      exact ih post _ (fun q' hq' => hpre q' (List.mem_cons_of_mem q hq')) hok

/-- C1: `LLMClient.generate` tries providers in ascending priority order
(the validated `provider_sequence` carries priorities exactly `1..N` in
strictly increasing order) and returns the parsed payload of the first
succeeding provider without consulting the rest; when every configured
provider fails it raises the aggregated error listing each attempted
provider's display name with its last error message, in order. -/
theorem C1_generate_provider_fallback {α β : Type} (maxRetries : Nat)
    (messages : List Message) (promptCacheKey : Option String) :
    (∀ (pre post : List (ProviderModel α)) (provider : ProviderModel α) (payload : α),
      (∀ q ∈ pre, ∃ e,
        generate_with_provider maxRetries q messages promptCacheKey = .error e) →
      generate_with_provider maxRetries provider messages promptCacheKey = .ok payload →
      generate maxRetries (pre ++ provider :: post) messages promptCacheKey =
        .ok (payload, provider.modelName)) ∧
    (∀ (providers : List (ProviderModel α)) (E : ProviderModel α → String),
      (∀ q ∈ providers,
        generate_with_provider maxRetries q messages promptCacheKey = .error (E q)) →
      generate maxRetries providers messages promptCacheKey =
        .error ("All LLM providers failed: " ++
          joined_provider_errors (providers.map (fun q => (q.displayName, E q))))) ∧
    (∀ (value seq : List (Nat × β)),
      validate_providers value = .ok seq →
      seq.map Prod.fst = List.range' 1 value.length ∧
      List.Sorted (· < ·) (seq.map Prod.fst)) := by
  refine ⟨?_, ?_, ?_⟩
  · intro pre post provider payload hpre hok
    unfold generate
    rw [generate_aux_first_success maxRetries messages promptCacheKey payload provider
      pre post [] hpre hok]
  · intro providers E h
    unfold generate
    rw [generate_aux_all_fail maxRetries messages promptCacheKey E providers [] h]
    simp
  · intro value seq hv
    unfold validate_providers at hv
    by_cases hemp : value.isEmpty
    · simp [hemp] at hv
    · simp only [hemp, if_false] at hv
      by_cases hrange :
          (List.insertionSort (fun a b => a.1 ≤ b.1) value).map Prod.fst =
            List.range' 1 value.length
      · simp only [hrange, if_true] at hv
        cases hv
        refine ⟨hrange, ?_⟩
        rw [hrange]
        exact List.pairwise_lt_range' 1 value.length
      · simp [hrange] at hv

/-- A provider transport that always raises an unrecognized API error. -/
def C1oracleFail : Nat → Bool → Bool → List Message → CallResult Nat :=
  fun _ _ _ _ => .raisedApiError "boom"

/-- A provider transport that immediately returns valid parsed JSON. -/
def C1oracleOk : Nat → Bool → Bool → List Message → CallResult Nat :=
  fun _ _ _ _ => .returned true (some "stop") (some "{}") (some 7)

/-- Witness for C1 at concrete inputs: a failing first provider followed by
a succeeding second one yields the second provider's payload; two failing
providers yield the aggregated error naming both; an unordered priority
mapping is iterated in ascending priority order. -/
theorem C1_generate_provider_fallback_witness :
    generate 1
      [{ displayName := "p1", modelName := "m1", reasoningEnabled := false,
         oracle := C1oracleFail },
       { displayName := "p2", modelName := "m2", reasoningEnabled := false,
         oracle := C1oracleOk }] [] none = .ok (7, "m2") ∧
    generate 1
      [{ displayName := "p1", modelName := "m1", reasoningEnabled := false,
         oracle := C1oracleFail }] [] none =
      .error ("All LLM providers failed: " ++
        joined_provider_errors [("p1", "LLM request failed: boom")]) ∧
    ([((1 : Nat), "a"), (2, "b")].map Prod.fst = List.range' 1 2 ∧
      List.Sorted (· < ·) ([((1 : Nat), "a"), (2, "b")].map Prod.fst)) := by
  refine ⟨?_, ?_, ?_⟩
  · exact (C1_generate_provider_fallback (β := Unit) 1 [] none).1
      [{ displayName := "p1", modelName := "m1", reasoningEnabled := false,
         oracle := C1oracleFail }] []
      { displayName := "p2", modelName := "m2", reasoningEnabled := false,
        oracle := C1oracleOk } 7
      (by
        intro q hq
        simp only [List.mem_singleton] at hq
        subst hq
        exact ⟨"LLM request failed: boom", rfl⟩)
      rfl
  · have h := (C1_generate_provider_fallback (β := Unit) 1 [] none).2.1
      [{ displayName := "p1", modelName := "m1", reasoningEnabled := false,
         oracle := C1oracleFail }] (fun _ => "LLM request failed: boom")
      (by
        intro q hq
        simp only [List.mem_singleton] at hq
        subst hq
        rfl)
    simpa using h
  · exact (C1_generate_provider_fallback (α := Nat) 1 [] none).2.2
      [(2, "b"), (1, "a")] [((1 : Nat), "a"), (2, "b")] rfl

/-- C5: a row whose provider invocation raises is recorded in the failed
tally — every other accumulator, including the cache and the
skipped-for-blank-identifier tally, is untouched — and the fold simply
continues with the remaining rows; a row skipped for a blank identifier
goes to the separate skipped tally instead. -/
theorem C5_row_failure_isolated (ctx : MainCtx) (s : RunState) (entry : StatusEntry)
    (rest : List StatusEntry) (msg : String)
    (hskip : ¬(entry.hasIdentifierColumn = true ∧ normalize_identifier entry.identifier = ""))
    (hmiss : row_cached_payload ctx s entry = none)
    (hfail : ctx.validate_oracle entry = .error msg) :
    process_row ctx s entry =
      { s with
        failed_entries := s.failed_entries ++ [entry]
        checkdate_force_remaining := (row_force_decision ctx s entry).2 } ∧
    process_rows ctx (entry :: rest) s = process_rows ctx rest (process_row ctx s entry) ∧
    (∀ e2 : StatusEntry, e2.hasIdentifierColumn = true →
      normalize_identifier e2.identifier = "" →
      process_row ctx s e2 =
        { s with
          skipped_missing_identifier := s.skipped_missing_identifier ++ [e2] }) := by
  refine ⟨?_, rfl, ?_⟩
  · unfold process_row
    rw [if_neg hskip, hmiss, hfail]
  · intro e2 h1 h2
    unfold process_row
    rw [if_pos ⟨h1, h2⟩]

/-- Witness for C5 at concrete inputs. -/
theorem C5_row_failure_isolated_witness :
    process_row
      { force := true, checkdate := false, dry_run := false,
        use_identifier_updates := false, source_spreadsheet_id := "S",
        source_sheet_name := "T", allowed_statuses := [], check_date := "d",
        current_week_start := 0, parse_check_date := fun _ => none,
        existing_check_date_by_identifier := fun _ => none,
        existing_check_date_by_row_number := fun _ => none,
        existing_model_by_identifier := fun _ => none,
        existing_model_by_row_number := fun _ => none,
        sha256hex := fun st => st, parseJson := fun _ => none,
        jsonDumps := fun _ => "", pyStr := fun _ => "",
        build_row_url := fun _ => "u",
        validate_oracle := fun _ => .error "All LLM providers failed: p1: boom" }
      { results := [], processed_entries := [], processed_check_dates := [],
        processed_model_names := [], failed_entries := [],
        skipped_missing_identifier := [], write_entries := [], write_results := [],
        write_check_dates := [], write_model_names := [],
        checkdate_force_remaining := 1, cache := [] }
      { row_number := 2, status_text := "Done", comment_text := "c",
        completion_date := none, identifier := none, hasIdentifierColumn := false } =
    { results := [], processed_entries := [], processed_check_dates := [],
      processed_model_names := [],
      failed_entries := [⟨2, "Done", "c", none, none, false⟩],
      skipped_missing_identifier := [], write_entries := [], write_results := [],
      write_check_dates := [], write_model_names := [],
      checkdate_force_remaining := 1, cache := [] } := by
  have h := C5_row_failure_isolated
    { force := true, checkdate := false, dry_run := false,
      use_identifier_updates := false, source_spreadsheet_id := "S",
      source_sheet_name := "T", allowed_statuses := [], check_date := "d",
      current_week_start := 0, parse_check_date := fun _ => none,
      existing_check_date_by_identifier := fun _ => none,
      existing_check_date_by_row_number := fun _ => none,
      existing_model_by_identifier := fun _ => none,
      existing_model_by_row_number := fun _ => none,
      sha256hex := fun st => st, parseJson := fun _ => none,
      jsonDumps := fun _ => "", pyStr := fun _ => "",
      build_row_url := fun _ => "u",
      validate_oracle := fun _ => .error "All LLM providers failed: p1: boom" }
    { results := [], processed_entries := [], processed_check_dates := [],
      processed_model_names := [], failed_entries := [],
      skipped_missing_identifier := [], write_entries := [], write_results := [],
      write_check_dates := [], write_model_names := [],
      checkdate_force_remaining := 1, cache := [] }
    { row_number := 2, status_text := "Done", comment_text := "c",
      completion_date := none, identifier := none, hasIdentifierColumn := false }
    [] "All LLM providers failed: p1: boom" (by simp) rfl rfl
  exact h.1

/-- C7: in upsert-by-identifier mode a row whose verdict was rebuilt from
the cache changes none of the write-queue accumulators (and leaves the
cache itself untouched) even though its verdict is appended to the results,
so it is never flushed to the destination; a freshly validated row in the
same mode (outside a dry run) is enqueued. -/
theorem C7_cached_rows_not_enqueued (ctx : MainCtx) (s : RunState) (entry : StatusEntry)
    (rest : List StatusEntry) (payload : JObj)
    (hui : ctx.use_identifier_updates = true)
    (hskip : ¬(entry.hasIdentifierColumn = true ∧ normalize_identifier entry.identifier = ""))
    (hcache : row_cached_payload ctx s entry = some payload) :
    (process_row ctx s entry).write_entries = s.write_entries ∧
    (process_row ctx s entry).write_results = s.write_results ∧
    (process_row ctx s entry).write_check_dates = s.write_check_dates ∧
    (process_row ctx s entry).write_model_names = s.write_model_names ∧
    (process_row ctx s entry).cache = s.cache ∧
    (process_row ctx s entry).results = s.results ++
      [build_result_from_payload ctx.pyStr ctx.jsonDumps ctx.allowed_statuses
        ctx.build_row_url entry payload] ∧
    process_rows ctx (entry :: rest) s = process_rows ctx rest (process_row ctx s entry) ∧
    (∀ (s2 : RunState) (e2 : StatusEntry) (payload2 : JObj) (model2 : String),
      ¬(e2.hasIdentifierColumn = true ∧ normalize_identifier e2.identifier = "") →
      row_cached_payload ctx s2 e2 = none →
      ctx.validate_oracle e2 = .ok (payload2, model2) →
      ctx.dry_run = false →
      (process_row ctx s2 e2).write_entries = s2.write_entries ++ [e2]) := by
  have hstep : process_row ctx s entry =
      append_processed ctx s entry
        (build_result_from_payload ctx.pyStr ctx.jsonDumps ctx.allowed_statuses
          ctx.build_row_url entry payload)
        none
        (match
          (if normalize_identifier entry.identifier ≠ "" then
            ctx.existing_model_by_identifier (normalize_identifier entry.identifier)
          else none) with
          | none => ctx.existing_model_by_row_number entry.row_number
          | some v => some v)
        (row_force_decision ctx s entry).2 s.cache := by
    unfold process_row
    rw [if_neg hskip, hcache]
  refine ⟨?_, ?_, ?_, ?_, ?_, ?_, rfl, ?_⟩ <;> try (rw [hstep]; simp [append_processed])
  intro s2 e2 payload2 model2 hskip2 hmiss2 hok2 hdr
  have hstep2 : process_row ctx s2 e2 =
      append_processed ctx s2 e2
        (build_result_from_payload ctx.pyStr ctx.jsonDumps ctx.allowed_statuses
          ctx.build_row_url e2 payload2)
        (some ctx.check_date) (some model2) (row_force_decision ctx s2 e2).2
        (store_payload (fun p => ctx.jsonDumps (.jobj p)) s2.cache
          ctx.source_spreadsheet_id ctx.source_sheet_name e2.row_number
          e2.status_text (compute_comment_hash ctx.sha256hex (some e2.comment_text))
          payload2) := by
    unfold process_row
    rw [if_neg hskip2, hmiss2, hok2]
  rw [hstep2]
  simp [append_processed, hui, hdr]

/-- The run context of the concrete C6/C7 cache-reuse scenario: no forcing
flags, no identifier column, a cache holding the payload for source row 5,
and a destination snapshot in which physical row 2 (check date "A") belongs
to source row 10 and physical row 3 (check date "B") to source row 5. -/
def C6ctx : MainCtx :=
  { force := false, checkdate := false, dry_run := false,
    use_identifier_updates := false, source_spreadsheet_id := "S",
    source_sheet_name := "T", allowed_statuses := [],
    check_date := "02.02.2026 10:00", current_week_start := 0,
    parse_check_date := fun _ => none,
    existing_check_date_by_identifier := fun _ => none,
    existing_check_date_by_row_number := fun n =>
      if n = 5 then some "B" else if n = 10 then some "A" else none,
    existing_model_by_identifier := fun _ => none,
    existing_model_by_row_number := fun _ => none,
    sha256hex := fun st => st,
    parseJson := fun st => if st = "PJ" then some [("is_valid", Jv.jbool true)] else none,
    jsonDumps := fun _ => "PJ", pyStr := fun _ => "",
    build_row_url := fun _ => "u",
    validate_oracle := fun _ => .error "no provider call expected" }

/-- Source row 5 of the C6 scenario. -/
def C6entry : StatusEntry :=
  { row_number := 5, status_text := "Done", comment_text := "c",
    completion_date := none, identifier := none, hasIdentifierColumn := false }

/-- Initial run state of the C6 scenario: empty accumulators and a cache
entry matching row 5's key exactly. -/
def C6s0 : RunState :=
  { results := [], processed_entries := [], processed_check_dates := [],
    processed_model_names := [], failed_entries := [],
    skipped_missing_identifier := [], write_entries := [], write_results := [],
    write_check_dates := [], write_model_names := [],
    checkdate_force_remaining := 0,
    cache := [(("S", "T", 5), ⟨"Done", "c", "PJ"⟩)] }

/-- C6 counterexample: for the cache-reused row 5 the code backfills the
check date positionally — output offset 0 takes the snapshot's first data
row's check date "A" (which belongs to source row 10) — whereas the claim's
identifier/row-number-keyed backfill would give "B", the check date
recorded for source row 5. -/
theorem C6_checkdate_backfill_counterexample :
    check_dates_for_rows (process_rows C6ctx [C6entry] C6s0).processed_check_dates
      ["A", "B"] 0 = [some "A"] ∧
    spec_backfill_check_date C6ctx.existing_check_date_by_identifier
      C6ctx.existing_check_date_by_row_number
      (normalize_identifier C6entry.identifier) C6entry.row_number = some "B" ∧
    some "A" ≠ some "B" := by
  refine ⟨rfl, rfl, by decide⟩

/-- C6 amended: a cache-reused row is never stamped with the current time
or model — its check-date stamp is recorded as `None` and its model is
backfilled from the identifier-keyed history, falling back to the
row-number-keyed history; at flush time the still-`None` check date (and a
still-`None` model) is backfilled positionally, from the destination
snapshot's column value at the same output offset, not from the
identifier/row-keyed history. -/
theorem C6_cached_backfill_amended (ctx : MainCtx) (s : RunState) (entry : StatusEntry)
    (payload : JObj)
    (hskip : ¬(entry.hasIdentifierColumn = true ∧ normalize_identifier entry.identifier = ""))
    (hcache : row_cached_payload ctx s entry = some payload) :
    (process_row ctx s entry).processed_check_dates = s.processed_check_dates ++ [none] ∧
    (process_row ctx s entry).processed_model_names = s.processed_model_names ++
      [match
        (if normalize_identifier entry.identifier ≠ "" then
          ctx.existing_model_by_identifier (normalize_identifier entry.identifier)
        else none) with
        | none => ctx.existing_model_by_row_number entry.row_number
        | some v => some v] ∧
    (∀ (vals : List (Option String)) (existing : List String) (last idx : Nat),
      vals[idx]? = some none →
      (check_dates_for_rows vals existing last)[idx]? = some existing[last + idx]?) ∧
    (∀ (vals : List (Option String)) (existing : List String) (last idx : Nat) (d : String),
      vals[idx]? = some (some d) →
      (check_dates_for_rows vals existing last)[idx]? = some (some d)) ∧
    (∀ (vals : List (Option String)) (existing : List String) (last idx : Nat),
      vals[idx]? = some none →
      (model_names_for_rows vals existing last)[idx]? = some existing[last + idx]?) ∧
    (∀ (vals : List (Option String)) (existing : List String) (last idx : Nat) (m : String),
      vals[idx]? = some (some m) →
      (model_names_for_rows vals existing last)[idx]? = some (some m)) := by
  have hstep : process_row ctx s entry =
      append_processed ctx s entry
        (build_result_from_payload ctx.pyStr ctx.jsonDumps ctx.allowed_statuses
          ctx.build_row_url entry payload)
        none
        (match
          (if normalize_identifier entry.identifier ≠ "" then
            ctx.existing_model_by_identifier (normalize_identifier entry.identifier)
          else none) with
          | none => ctx.existing_model_by_row_number entry.row_number
          | some v => some v)
        (row_force_decision ctx s entry).2 s.cache := by
    unfold process_row
    rw [if_neg hskip, hcache]
  refine ⟨?_, ?_, ?_, ?_, ?_, ?_⟩
  · rw [hstep]; simp [append_processed]
  · rw [hstep]; simp [append_processed]
  · intro vals existing last idx h
    unfold check_dates_for_rows
    rw [List.getElem?_map, List.getElem?_enum, h]
    rfl
  · intro vals existing last idx d h
    unfold check_dates_for_rows
    rw [List.getElem?_map, List.getElem?_enum, h]
    rfl
  · intro vals existing last idx h
    unfold model_names_for_rows
    rw [List.getElem?_map, List.getElem?_enum, h]
    rfl
  · intro vals existing last idx m h
    unfold model_names_for_rows
    rw [List.getElem?_map, List.getElem?_enum, h]
    rfl

/-- Witness for C6 (amended) at the concrete C6 scenario. -/
theorem C6_cached_backfill_amended_witness :
    (process_row C6ctx C6s0 C6entry).processed_check_dates = [none] ∧
    (check_dates_for_rows [none] ["A", "B"] 0)[0]? = some (["A", "B"][0 + 0]?) := by
  have h := C6_cached_backfill_amended C6ctx C6s0 C6entry
    [("is_valid", Jv.jbool true)] (by simp [C6entry]) rfl
  exact ⟨h.1, h.2.2.1 [none] ["A", "B"] 0 0 rfl⟩

/-- Witness for C7 at the concrete C6 scenario with upsert mode enabled. -/
theorem C7_cached_rows_not_enqueued_witness :
    (process_row
      { C6ctx with use_identifier_updates := true } C6s0 C6entry).write_entries = [] ∧
    (process_row
      { C6ctx with use_identifier_updates := true } C6s0 C6entry).cache = C6s0.cache := by
  have h := C7_cached_rows_not_enqueued { C6ctx with use_identifier_updates := true }
    C6s0 C6entry [] [("is_valid", Jv.jbool true)] rfl (by simp [C6entry]) rfl
  exact ⟨h.1, h.2.2.2.2.1⟩

/-- C9: whatever order the workers complete in (any permutation of the
submitted entries, for any worker count), the successful results of
`validate_batch_parallel` come out sorted ascending by row number; and when
the successful rows' numbers are distinct the output is the same list for
any two completion orders. -/
theorem C9_parallel_results_sorted (outcome : StatusEntry → Option ValidationResult)
    (entries order1 order2 : List StatusEntry)
    (h1 : order1.Perm entries) (h2 : order2.Perm entries) :
    List.Sorted (fun a b => a.1.row_number ≤ b.1.row_number)
      (validate_batch_parallel outcome order1).1 ∧
    (((validate_batch_parallel outcome order1).1.map
        (fun pr => pr.1.row_number)).Nodup →
      (validate_batch_parallel outcome order1).1 =
        (validate_batch_parallel outcome order2).1) := by
  haveI htot : IsTotal (StatusEntry × ValidationResult)
      (fun a b => a.1.row_number ≤ b.1.row_number) :=
    ⟨fun a b => Nat.le_total a.1.row_number b.1.row_number⟩
  haveI htr : IsTrans (StatusEntry × ValidationResult)
      (fun a b => a.1.row_number ≤ b.1.row_number) :=
    ⟨fun _ _ _ hab hbc => Nat.le_trans hab hbc⟩
  have e1 : (validate_batch_parallel outcome order1).1 =
      List.insertionSort (fun a b => a.1.row_number ≤ b.1.row_number)
        (order1.filterMap (fun e => (outcome e).map (fun r => (e, r)))) := rfl
  have e2 : (validate_batch_parallel outcome order2).1 =
      List.insertionSort (fun a b => a.1.row_number ≤ b.1.row_number)
        (order2.filterMap (fun e => (outcome e).map (fun r => (e, r)))) := rfl
  constructor
  · rw [e1]
    exact List.sorted_insertionSort _ _
  · intro hnodup
    have hperm : ((validate_batch_parallel outcome order1).1).Perm
        ((validate_batch_parallel outcome order2).1) := by
      rw [e1, e2]
      exact (List.perm_insertionSort _ _).trans
        (((h1.trans h2.symm).filterMap _).trans (List.perm_insertionSort _ _).symm)
    have hs1 : List.Sorted (fun a b => a.1.row_number ≤ b.1.row_number)
        (validate_batch_parallel outcome order1).1 := by
      rw [e1]
      exact List.sorted_insertionSort _ _
    have hs2 : List.Sorted (fun a b => a.1.row_number ≤ b.1.row_number)
        (validate_batch_parallel outcome order2).1 := by
      rw [e2]
      exact List.sorted_insertionSort _ _
    have hnodup2 : (((validate_batch_parallel outcome order2).1.map
        (fun pr => pr.1.row_number))).Nodup :=
      (hperm.map (fun pr => pr.1.row_number)).nodup_iff.mp hnodup
    have hne1 : ((validate_batch_parallel outcome order1).1).Pairwise
        (fun a b => a.1.row_number ≠ b.1.row_number) :=
      List.pairwise_map.mp hnodup
    have hne2 : ((validate_batch_parallel outcome order2).1).Pairwise
        (fun a b => a.1.row_number ≠ b.1.row_number) :=
      List.pairwise_map.mp hnodup2
    have hlt1 : ((validate_batch_parallel outcome order1).1).Pairwise
        (fun a b => a.1.row_number < b.1.row_number) :=
      (hs1.and hne1).imp (fun h => Nat.lt_of_le_of_ne h.1 h.2)
    have hlt2 : ((validate_batch_parallel outcome order2).1).Pairwise
        (fun a b => a.1.row_number < b.1.row_number) :=
      (hs2.and hne2).imp (fun h => Nat.lt_of_le_of_ne h.1 h.2)
    have hanti : IsAntisymm (StatusEntry × ValidationResult)
        (fun a b => a.1.row_number < b.1.row_number ∨ a = b) := by
      refine ⟨fun a b hab hba => ?_⟩
      rcases hab with hab | hab
      · rcases hba with hba | hba
        · exact absurd hba (Nat.lt_asymm hab)
        · exact hba.symm
      · exact hab
    exact @List.eq_of_perm_of_sorted _
      (fun a b => a.1.row_number < b.1.row_number ∨ a = b) hanti _ _ hperm
      (hlt1.imp (fun {a b} h =>
        (Or.inl h : a.1.row_number < b.1.row_number ∨ a = b)))
      (hlt2.imp (fun {a b} h =>
        (Or.inl h : a.1.row_number < b.1.row_number ∨ a = b)))

/-- A batch entry with a given row number for the C9 scenario. -/
def C9entry (n : Nat) : StatusEntry :=
  { row_number := n, status_text := "Done", comment_text := "c",
    completion_date := none, identifier := none, hasIdentifierColumn := false }

/-- The verdict the C9 scenario's oracle produces for row `n`. -/
def C9res (n : Nat) : ValidationResult :=
  { row_number := n, source_url := "u", is_valid := true, issues := "",
    rewrite_suggestion := "", raw_response := [] }

/-- A per-row outcome in which every entry validates successfully. -/
def C9outcome : StatusEntry → Option ValidationResult :=
  fun e => some (C9res e.row_number)

/-- Witness for C9: the spec's rows `[5, 2, 4]`, here completing in the
order `[4, 5, 2]`, come out as `[2, 4, 5]`, and the other completion order
gives the identical list. -/
theorem C9_parallel_results_sorted_witness :
    List.Sorted (fun a b => a.1.row_number ≤ b.1.row_number)
      (validate_batch_parallel C9outcome [C9entry 4, C9entry 5, C9entry 2]).1 ∧
    (validate_batch_parallel C9outcome [C9entry 4, C9entry 5, C9entry 2]).1 =
      (validate_batch_parallel C9outcome [C9entry 5, C9entry 2, C9entry 4]).1 ∧
    (validate_batch_parallel C9outcome [C9entry 5, C9entry 2, C9entry 4]).1 =
      [(C9entry 2, C9res 2), (C9entry 4, C9res 4), (C9entry 5, C9res 5)] := by
  have h := C9_parallel_results_sorted C9outcome
    [C9entry 5, C9entry 2, C9entry 4]
    [C9entry 4, C9entry 5, C9entry 2]
    [C9entry 5, C9entry 2, C9entry 4]
    (by decide) (List.Perm.refl _)
  refine ⟨h.1, h.2 ?_, rfl⟩
  decide

end StatusValidator
